import Mathlib

/-!
Shallow embedding of the connection coordinator of the
`philips_airpurifier_coap` integration
(`custom_components/philips_airpurifier_coap/coordinator.py`) together
with the two control surfaces the claims mention
(`button.py` and `humidifier.py`).

Modelling conventions:
* `DeviceStatus` is an opaque mapping from attribute keys to values
  (keys and values are numbers here; the coordinator never inspects it).
* Listener callbacks are identified by a numeric identity
  (`CALLBACK_TYPE` objects compared by identity in Python).
* `asyncio` tasks are identified by the numeric id handed out by a
  monotone counter `nextTask`; a field of type `Option Nat` holds the
  task reference (`None` in Python = `none`).
* Every coordinator operation returns, besides the new coordinator
  state, the list of primitive effects it performed in order
  (task cancellations, task spawns, timer operations, client close,
  listener invocations), so that ordering claims are statable.
* Fallible Python code (a raising statement, a `try`/`except`) is
  embedded with `Except`.
-/

namespace PhilipsCoap

/-- Listener callbacks, compared by identity (`CALLBACK_TYPE` in the source). -/
abbrev ListenerId := Nat

/-- `DeviceStatus`: an opaque attribute-key to value mapping, replaced wholesale. -/
abbrev DeviceStatus := List (Nat × Int)

/-- `MISSED_PACKAGE_COUNT = 3` from `coordinator.py`. -/
def MISSED_PACKAGE_COUNT : Int := 3

/-- Modelled from the spec: the Liveness Timer (`timer.py` of this repository
is not among the given sources). Per spec section 4.1 it owns a duration, an
auto-rearm flag and a pending countdown; `set-timeout` changes the duration
used by future countdowns, `reset` restarts the countdown, `cancel` makes the
timer inert. -/
structure Timer where
  timeout : Int
  autoRestart : Bool
  cancelled : Bool
deriving Repr, DecidableEq

/-- Modelled from the spec: `set-timeout(new-duration)` changes the duration
used by future countdowns. -/
def Timer.setTimeout (tm : Timer) (t : Int) : Timer := { tm with timeout := t }

/-- Modelled from the spec: `reset()` cancels any in-flight countdown and
starts a fresh one; the timer is counting down again afterwards. -/
def Timer.reset (tm : Timer) : Timer := { tm with cancelled := false }

/-- Modelled from the spec: `cancel()` stops any pending countdown; the timer
becomes inert. -/
def Timer.cancel (tm : Timer) : Timer := { tm with cancelled := true }

/-- Modelled from the spec: `setAutoRestart` enables auto-rearm after firing. -/
def Timer.setAutoRestart (tm : Timer) (b : Bool) : Timer := { tm with autoRestart := b }

/-- Primitive observable effects of coordinator operations, in program order. -/
inductive Action where
  /-- `self.status = status` in the observation loop. -/
  | statusReplaced (s : DeviceStatus)
  /-- `self._timer_disconnected.reset()`. -/
  | timerReset
  /-- `self._timer_disconnected.cancel()`. -/
  | timerCancel
  /-- `self._timer_disconnected.setTimeout(t)`. -/
  | timerSetTimeout (t : Int)
  /-- `self._task.cancel()` on the observation task with the given id. -/
  | cancelObserve (id : Nat)
  /-- `asyncio.create_task(self._async_observe_status())` producing a task id. -/
  | spawnObserve (id : Nat)
  /-- `self._reconnect_task.cancel()` on the reconnect task with the given id. -/
  | cancelReconnect (id : Nat)
  /-- `asyncio.create_task(self._reconnect())` producing a task id. -/
  | spawnReconnect (id : Nat)
  /-- `await self.client.shutdown()`. -/
  | clientClose
  /-- invocation of a registered listener callback; `seen` is the value the
  callback reads from `self.status` while it runs. -/
  | invoke (l : ListenerId) (seen : Option DeviceStatus)
deriving Repr, DecidableEq

/-- The mutable state of `Coordinator` (`coordinator.py`). -/
structure Coordinator where
  /-- `self.status`, `None` before the first successful update. -/
  status : Option DeviceStatus
  /-- `self._listeners`, in registration order. -/
  listeners : List ListenerId
  /-- `self._task`, the observation task. -/
  task : Option Nat
  /-- `self._reconnect_task`. -/
  reconnectTask : Option Nat
  /-- `self._timeout`. -/
  timeout : Int
  /-- `self._timer_disconnected`. -/
  timer : Timer
  /-- fresh task-id counter for `asyncio.create_task`. -/
  nextTask : Nat
deriving Repr, DecidableEq

/-- `Coordinator.__init__`: no status, no listeners, no tasks, timeout 60, the
Liveness Timer autostarted with `timeout * MISSED_PACKAGE_COUNT` and
auto-restart enabled. -/
def Coordinator.init : Coordinator :=
  { status := none
    listeners := []
    task := none
    reconnectTask := none
    timeout := 60
    timer :=
      (Timer.setAutoRestart
        { timeout := 60 * MISSED_PACKAGE_COUNT, autoRestart := false, cancelled := false }
        true)
    nextTask := 0 }

/-- `Coordinator._start_observing`: cancel the current observation task if any,
clear it, create a new observation task, reset the Liveness Timer. -/
def Coordinator.start_observing (c : Coordinator) : Coordinator × List Action :=
  let pre : Coordinator × List Action :=
    match c.task with
    | some t => ({ c with task := none }, [Action.cancelObserve t])
    | none => (c, [])
  let c1 := pre.1
  let id := c1.nextTask
  ({ c1 with
      task := some id
      nextTask := id + 1
      timer := c1.timer.reset },
   pre.2 ++ [Action.spawnObserve id, Action.timerReset])

/-- `Coordinator.async_add_listener`: remember whether the listener list was
empty, append the callback, and start observing if it was. -/
def Coordinator.async_add_listener (c : Coordinator) (l : ListenerId) :
    Coordinator × List Action :=
  let startObs := c.listeners.isEmpty
  let c1 := { c with listeners := c.listeners ++ [l] }
  if startObs then c1.start_observing else (c1, [])

/-- The error raised by Python's `list.remove` when the element is absent. -/
inductive PyError where
  | valueError
deriving Repr, DecidableEq

/-- `Coordinator.async_remove_listener`: `self._listeners.remove(cb)` (which
raises `ValueError` when `cb` is not registered, removing the first occurrence
otherwise), then cancel and clear the observation task when the list became
empty and a task exists. -/
def Coordinator.async_remove_listener (c : Coordinator) (l : ListenerId) :
    Except PyError (Coordinator × List Action) :=
  if c.listeners.contains l then
    let c1 := { c with listeners := c.listeners.erase l }
    if c1.listeners.isEmpty then
      match c1.task with
      | some t => Except.ok ({ c1 with task := none }, [Action.cancelObserve t])
      | none => Except.ok (c1, [])
    else
      Except.ok (c1, [])
  else
    Except.error PyError.valueError

/-- `Coordinator.reconnect`: if a reconnect task is recorded, cancel it and
clear the field, then create a fresh reconnect task and record it. -/
def Coordinator.reconnect (c : Coordinator) : Coordinator × List Action :=
  let pre : Coordinator × List Action :=
    match c.reconnectTask with
    | some t => ({ c with reconnectTask := none }, [Action.cancelReconnect t])
    | none => (c, [])
  let c1 := pre.1
  let id := c1.nextTask
  ({ c1 with reconnectTask := some id, nextTask := id + 1 },
   pre.2 ++ [Action.spawnReconnect id])

/-- `Coordinator.shutdown`: cancel the reconnect task if present, cancel the
Liveness Timer, close the client.  The observation task field is not touched. -/
def Coordinator.shutdown (c : Coordinator) : Coordinator × List Action :=
  let pre : List Action :=
    match c.reconnectTask with
    | some t => [Action.cancelReconnect t]
    | none => []
  ({ c with timer := c.timer.cancel },
   pre ++ [Action.timerCancel, Action.clientClose])

/-- `ConfigEntryNotReady`, the distinguished setup-failure error. -/
inductive RefreshError where
  | configEntryNotReady
deriving Repr, DecidableEq

/-- An opaque connectivity error raised by the client. -/
abbrev ClientError := Nat

/-- `Coordinator.async_first_refresh`: `self.status, timeout =
await self.client.get_status()` followed by `self._timeout = timeout` and
`setTimeout(timeout * MISSED_PACKAGE_COUNT)`; any exception of the fetch is
re-raised as `ConfigEntryNotReady` with no state mutated (the tuple assignment
never happened). The first component is the call's outcome, the second the
coordinator afterwards, the third the effects performed. -/
def Coordinator.async_first_refresh (c : Coordinator)
    (getStatusResult : Except ClientError (DeviceStatus × Int)) :
    Except RefreshError Unit × Coordinator × List Action :=
  match getStatusResult with
  | Except.ok (s, t) =>
      (Except.ok (),
       { c with
          status := some s
          timeout := t
          timer := c.timer.setTimeout (t * MISSED_PACKAGE_COUNT) },
       [Action.timerSetTimeout (t * MISSED_PACKAGE_COUNT)])
  | Except.error _ => (Except.error RefreshError.configEntryNotReady, c, [])

/-- One iteration of the `async for` body of
`Coordinator._async_observe_status` for a drawn update `status`:
`self.status = status`, `self._timer_disconnected.reset()`, then
`for update_callback in self._listeners: update_callback()`.  Each `invoke`
records the value of `self.status` visible to the callback while it runs. -/
def Coordinator.observe_status_step (c : Coordinator) (status : DeviceStatus) :
    Coordinator × List Action :=
  let c1 := { c with status := some status }
  let c2 := { c1 with timer := c1.timer.reset }
  (c2,
   Action.statusReplaced status :: Action.timerReset ::
     c2.listeners.map (fun l => Action.invoke l c2.status))

/-- One subscribe or unsubscribe call. -/
inductive LOp where
  | add (l : ListenerId)
  | remove (l : ListenerId)
deriving Repr, DecidableEq

/-- Apply one subscribe/unsubscribe call to the coordinator; a raising
`remove` leaves the state unchanged (the exception propagates to the caller
before any mutation). -/
def Coordinator.applyOp (c : Coordinator) (op : LOp) : Coordinator :=
  match op with
  | LOp.add l => (c.async_add_listener l).1
  | LOp.remove l =>
      match c.async_remove_listener l with
      | Except.ok r => r.1
      | Except.error _ => c

/-- Apply a sequence of subscribe/unsubscribe calls in order. -/
def Coordinator.applyOps (c : Coordinator) (ops : List LOp) : Coordinator :=
  ops.foldl Coordinator.applyOp c

/-- Apply a burst of consecutive `async_add_listener` calls, accumulating all
effects in order. -/
def Coordinator.addAll (c : Coordinator) : List ListenerId → Coordinator × List Action
  | [] => (c, [])
  | l :: ls =>
      let r := c.async_add_listener l
      let rest := r.1.addAll ls
      (rest.1, r.2 ++ rest.2)

/-- Whether an effect is the spawning of an observation task. -/
def Action.isSpawnObserve : Action → Bool
  | Action.spawnObserve _ => true
  | _ => false

/-- Whether an effect is the cancellation of an observation task. -/
def Action.isCancelObserve : Action → Bool
  | Action.cancelObserve _ => true
  | _ => false

/-- Number of observation tasks spawned in a trace. -/
def spawnObserveCount (tr : List Action) : Nat :=
  (tr.filter Action.isSpawnObserve).length

/-- `PhilipsFilterResetButton.async_press` (`button.py`): inside a
`try` block, read the filter's total value from the cached device status, send
`set_control_value(filter_type, total_value)` through the coordinator's client
and run `_handle_coordinator_update`; `except Exception` logs the error and
returns normally.  The `Bool` result records whether the update handler ran;
the client call is passed in as a function so a failing client is
expressible. -/
def async_press (setControlValue : Nat → Option Int → Except ClientError Unit)
    (deviceStatus : DeviceStatus) (filterType totalKey : Nat) :
    Except ClientError Bool :=
  let body : Except ClientError Bool :=
    match setControlValue filterType
        ((deviceStatus.find? (fun p => p.1 == totalKey)).map (fun p => p.2)) with
    | Except.ok _ => Except.ok true
    | Except.error e => Except.error e
  match body with
  | Except.ok b => Except.ok b
  | Except.error _ => Except.ok false

/-- Writing one key of the optimistically patched cached device status
(`self._device_status[key] = value` in Python). -/
def setKV (st : DeviceStatus) (k : Nat) (v : Int) : DeviceStatus :=
  if st.any (fun p => p.1 == k) then
    st.map (fun p => if p.1 == k then (k, v) else p)
  else
    st ++ [(k, v)]

/-- `PhilipsHumidifier.async_turn_on` (`humidifier.py`): if the entity has no
switch, return; otherwise send power-on and humidifying function values
through the client (no `try` block: a client failure propagates), then patch
the cached status. -/
def async_turn_on (setControlValues : List (Nat × Int) → Except ClientError Unit)
    (switch : Bool) (powerKey functionKey : Nat) (onValue humidifyingValue : Int)
    (deviceStatus : DeviceStatus) : Except ClientError DeviceStatus :=
  if !switch then
    Except.ok deviceStatus
  else
    match setControlValues [(powerKey, onValue), (functionKey, humidifyingValue)] with
    | Except.error e => Except.error e
    | Except.ok _ =>
        Except.ok (setKV (setKV deviceStatus powerKey onValue) functionKey humidifyingValue)

/-- `PhilipsHumidifier.async_turn_off` (`humidifier.py`): if the entity has no
switch, return; otherwise send the idle function value through the client
(no `try` block: a client failure propagates), then patch the cached
status. -/
def async_turn_off (setControlValues : List (Nat × Int) → Except ClientError Unit)
    (switch : Bool) (functionKey : Nat) (idleValue : Int)
    (deviceStatus : DeviceStatus) : Except ClientError DeviceStatus :=
  if !switch then
    Except.ok deviceStatus
  else
    match setControlValues [(functionKey, idleValue)] with
    | Except.error e => Except.error e
    | Except.ok _ => Except.ok (setKV deviceStatus functionKey idleValue)

/-- Whether an `Except` result is a normal return. -/
def isOk {ε α : Type} : Except ε α → Bool
  | Except.ok _ => true
  | Except.error _ => false

/-- Python's `round` on the exact rational `num / den` for `den > 0`:
floor quotient, then round half to even (banker's rounding), matching
`round(humidity / step)` in `async_set_humidity` for the integer inputs the
entity handles (the model uses exact rational arithmetic in place of binary
floating point). -/
def pyRound (num den : Int) : Int :=
  let q := Int.fdiv num den
  let r := num - q * den
  if 2 * r < den then q
  else if den < 2 * r then q + 1
  else if q % 2 = 0 then q else q + 1

/-- `PhilipsHumidifier.async_set_humidity` (`humidifier.py`), value part:
adjust a plus/minus press (`current_target ± 1`) to a full step, round the
adjusted humidity to a multiple of `step`, clamp it into
`[min_humidity, max_humidity]` and send that; the cached status is patched
with the adjusted (pre-rounding, pre-clamping) humidity.  Returns
`(value sent to the client, value written to the cached status)`. -/
def async_set_humidity (step minHumidity maxHumidity currentTarget humidityInput : Int) :
    Int × Int :=
  let humidity :=
    if humidityInput = currentTarget + 1 then currentTarget + step
    else if humidityInput = currentTarget - 1 then currentTarget - step
    else humidityInput
  let target := pyRound humidity step * step
  let target := max minHumidity (min target maxHumidity)
  (target, humidity)

/-! ### Theorems -/

/-- C1 counterexample: on a fresh coordinator, whose listener list is empty,
removing the never-registered callback `0` raises `ValueError` — contradicting
the claim that removal of an unregistered callback raises no error. -/
theorem remove_unregistered_raises_cx :
    Coordinator.init.async_remove_listener 0 = Except.error PyError.valueError :=
  rfl

/-- C1 (amended): for every callback not currently registered,
`async_remove_listener` raises `ValueError` (Python `list.remove` on a missing
element) and, because the exception propagates before any mutation, the
coordinator state — in particular the listener list — is unchanged. -/
theorem remove_unregistered_raises (c : Coordinator) (l : ListenerId)
    (h : c.listeners.contains l = false) :
    c.async_remove_listener l = Except.error PyError.valueError ∧
      c.applyOp (LOp.remove l) = c := by
  have h1 : c.async_remove_listener l = Except.error PyError.valueError := by
    unfold Coordinator.async_remove_listener
    rw [h]
    simp
  refine ⟨h1, ?_⟩
  have h2 : c.applyOp (LOp.remove l) =
      match c.async_remove_listener l with
      | Except.ok r => r.1
      | Except.error _ => c := rfl
  rw [h2, h1]

/-- C1 witness: the amended statement at the fresh coordinator and callback 0. -/
theorem remove_unregistered_raises_witness :
    Coordinator.init.listeners.contains 0 = false ∧
      (Coordinator.init.async_remove_listener 0 = Except.error PyError.valueError ∧
        Coordinator.init.applyOp (LOp.remove 0) = Coordinator.init) :=
  ⟨rfl, remove_unregistered_raises Coordinator.init 0 rfl⟩

/-- C3: for every status update drawn by the observation loop, the step first
replaces the cached status wholesale, then resets the Liveness Timer, then
invokes each currently registered listener exactly once in registration order,
and each listener reads the new status value during its callback. -/
theorem observe_step_order (c : Coordinator) (s : DeviceStatus) :
    (c.observe_status_step s).1.status = some s ∧
      (c.observe_status_step s).1.timer.cancelled = false ∧
      (c.observe_status_step s).2 =
        Action.statusReplaced s :: Action.timerReset ::
          c.listeners.map (fun l => Action.invoke l (some s)) := by
  refine ⟨rfl, rfl, ?_⟩
  rfl

/-- C4: when the client's `get_status` raises during `async_first_refresh`,
the call raises `ConfigEntryNotReady`, the coordinator state (in particular
the cached status and the observation-task field) is unchanged, and no effect
— in particular no task spawn — is performed. -/
theorem first_refresh_failure (c : Coordinator) (e : ClientError) :
    c.async_first_refresh (Except.error e) =
      (Except.error RefreshError.configEntryNotReady, c, []) :=
  rfl

/-- C5: when the client's `get_status` succeeds with status `s` and polling
interval `t` during `async_first_refresh`, afterwards the cached status is `s`,
the stored timeout is `t`, and the Liveness Timer duration is set to
`t * MISSED_PACKAGE_COUNT`, i.e. `t * 3`. -/
theorem first_refresh_success (c : Coordinator) (s : DeviceStatus) (t : Int) :
    (c.async_first_refresh (Except.ok (s, t))).2.1.status = some s ∧
      (c.async_first_refresh (Except.ok (s, t))).2.1.timeout = t ∧
      (c.async_first_refresh (Except.ok (s, t))).2.1.timer.timeout = t * 3 ∧
      (c.async_first_refresh (Except.ok (s, t))).2.2 =
        [Action.timerSetTimeout (t * 3)] ∧
      (c.async_first_refresh (Except.ok (s, t))).1 = Except.ok () := by
  refine ⟨rfl, rfl, ?_, ?_, rfl⟩
  · rfl
  · rfl

/-- C7: whenever `reconnect` is invoked while a previous reconnect task is
recorded, that task is cancelled before the fresh reconnect task is spawned,
and afterwards exactly the fresh task is recorded as the one reconnect task. -/
theorem reconnect_supersedes (c : Coordinator) (t : Nat)
    (h : c.reconnectTask = some t) :
    (c.reconnect).2 =
        [Action.cancelReconnect t, Action.spawnReconnect c.nextTask] ∧
      (c.reconnect).1.reconnectTask = some c.nextTask := by
  simp [Coordinator.reconnect, h]

/-- C7 witness: the statement at a coordinator with reconnect task 5 recorded
and task counter 7. -/
theorem reconnect_supersedes_witness :
    ({ Coordinator.init with reconnectTask := some 5, nextTask := 7 }
        : Coordinator).reconnectTask = some 5 ∧
      (({ Coordinator.init with reconnectTask := some 5, nextTask := 7 }
          : Coordinator).reconnect).2 =
          [Action.cancelReconnect 5, Action.spawnReconnect 7] ∧
      (({ Coordinator.init with reconnectTask := some 5, nextTask := 7 }
          : Coordinator).reconnect).1.reconnectTask = some 7 :=
  ⟨rfl,
    reconnect_supersedes
      { Coordinator.init with reconnectTask := some 5, nextTask := 7 } 5 rfl⟩

/-- C8 counterexample: on a coordinator with a live observation task (id 0),
`shutdown` performs only the timer cancellation and the client close — no
observation-task cancellation appears among its effects, and the task is still
recorded afterwards — contradicting the claim that shutdown cancels all owned
tasks including the observation task. -/
theorem shutdown_leaves_observe_task_cx :
    (({ Coordinator.init with task := some 0 } : Coordinator).shutdown).2 =
        [Action.timerCancel, Action.clientClose] ∧
      (({ Coordinator.init with task := some 0 } : Coordinator).shutdown).1.task =
        some 0 :=
  ⟨rfl, rfl⟩

/-- C8 (amended): `shutdown` cancels the reconnect task when one is present,
cancels the Liveness Timer and closes the client, in that order; it does not
cancel the observation task, and it tolerates arbitrary (also
partially-initialized) state: it is total, and on a coordinator with no
reconnect task it simply cancels the timer and closes the client. -/
theorem shutdown_spec (c : Coordinator) :
    (c.shutdown).2 =
        (c.reconnectTask.toList.map Action.cancelReconnect) ++
          [Action.timerCancel, Action.clientClose] ∧
      (c.shutdown).1.timer.cancelled = true ∧
      (c.shutdown).1.task = c.task ∧
      (c.shutdown).1.status = c.status := by
  refine ⟨?_, rfl, rfl, rfl⟩
  cases h : c.reconnectTask with
  | none => simp [Coordinator.shutdown, h]
  | some t => simp [Coordinator.shutdown, h]

/-- C9 counterexample: a filter-reset button press whose underlying
`set_control_value` call fails returns normally (the `except Exception`
handler logs and swallows the failure), so the failure is not propagated to
the caller — contradicting the claim that every control-command failure on a
subscriber's write path is propagated. -/
theorem button_press_swallows_cx :
    async_press (fun _ _ => Except.error 0) [] 0 0 = Except.ok false :=
  rfl

/-- C9 (amended): a failure of the client call in the humidifier's
`async_turn_on` and `async_turn_off` write paths is propagated to the caller,
while the filter-reset button's `async_press` catches every client failure and
returns normally, never propagating an error. -/
theorem command_failure_propagation (e : ClientError)
    (powerKey functionKey : Nat) (onValue humidifyingValue idleValue : Int)
    (st : DeviceStatus) :
    async_turn_on (fun _ => Except.error e) true powerKey functionKey
        onValue humidifyingValue st = Except.error e ∧
      async_turn_off (fun _ => Except.error e) true functionKey idleValue st =
        Except.error e ∧
      ∀ (f : Nat → Option Int → Except ClientError Unit)
        (st2 : DeviceStatus) (k1 k2 : Nat),
        isOk (async_press f st2 k1 k2) = true := by
  refine ⟨rfl, rfl, ?_⟩
  intro f st2 k1 k2
  unfold async_press
  cases f k1 ((st2.find? (fun p => p.1 == k2)).map (fun p => p.2)) with
  | ok u => rfl
  | error e2 => rfl

/-- Helper: one subscribe/unsubscribe call preserves the correspondence
between a recorded observation task and a non-empty listener list. -/
theorem applyOp_inv (c : Coordinator) (op : LOp)
    (h : c.task.isSome = true ↔ c.listeners ≠ []) :
    ((c.applyOp op).task.isSome = true ↔ (c.applyOp op).listeners ≠ []) := by
  cases op with
  | add l =>
      show ((c.async_add_listener l).1.task.isSome = true ↔
        (c.async_add_listener l).1.listeners ≠ [])
      by_cases he : c.listeners.isEmpty = true
      · have hl : c.listeners = [] := by
          cases hq : c.listeners with
          | nil => rfl
          | cons a as => rw [hq] at he; simp at he
        cases ht : c.task with
        | none => simp [Coordinator.async_add_listener, Coordinator.start_observing, hl, ht]
        | some t0 => simp [Coordinator.async_add_listener, Coordinator.start_observing, hl, ht]
      · have hne : c.listeners ≠ [] := by
          intro hq
          rw [hq] at he
          exact he rfl
        have hb : c.listeners.isEmpty = false := by
          cases hq : c.listeners with
          | nil => exact absurd hq hne
          | cons a as => rfl
        have hs : c.task.isSome = true := h.mpr hne
        simp [Coordinator.async_add_listener, hb, hs]
  | remove l =>
      have happ : c.applyOp (LOp.remove l) =
          match c.async_remove_listener l with
          | Except.ok r => r.1
          | Except.error _ => c := rfl
      rw [happ]
      by_cases hm : c.listeners.contains l = true
      · have hne : c.listeners ≠ [] := by
          intro hq
          rw [hq] at hm
          simp at hm
        have hs : c.task.isSome = true := h.mpr hne
        unfold Coordinator.async_remove_listener
        rw [hm]
        by_cases hd : (c.listeners.erase l).isEmpty = true
        · have hdl : c.listeners.erase l = [] := by
            cases hq : c.listeners.erase l with
            | nil => rfl
            | cons a as => rw [hq] at hd; simp at hd
          cases ht : c.task with
          | none => rw [ht] at hs; simp at hs
          | some t0 => simp [hdl, ht]
        · have hdne : c.listeners.erase l ≠ [] := by
            intro hq
            rw [hq] at hd
            exact hd rfl
          have hdb : (c.listeners.erase l).isEmpty = false := by
            cases hq : c.listeners.erase l with
            | nil => exact absurd hq hdne
            | cons a as => rfl
          simp [hdb, hs, hdne]
      · have hb : c.listeners.contains l = false := by
          cases hq : c.listeners.contains l with
          | false => rfl
          | true => exact absurd hq hm
        unfold Coordinator.async_remove_listener
        rw [hb]
        simpa using h

/-- Helper: the correspondence is preserved along any sequence of
subscribe/unsubscribe calls. -/
theorem applyOps_inv (ops : List LOp) : ∀ c : Coordinator,
    (c.task.isSome = true ↔ c.listeners ≠ []) →
    ((c.applyOps ops).task.isSome = true ↔ (c.applyOps ops).listeners ≠ []) := by
  induction ops with
  | nil => exact fun c h => h
  | cons op ops ih => exact fun c h => ih (c.applyOp op) (applyOp_inv c op h)

/-- C2: for every sequence of add-listener and remove-listener calls starting
from a fresh coordinator, after each call (i.e. after every prefix of calls)
an observation task is recorded iff the listener list is non-empty: the first
add starts the observation loop and the remove that empties the list cancels
and clears it. -/
theorem observe_task_iff_listeners (ops : List LOp) :
    ((Coordinator.init.applyOps ops).task.isSome = true ↔
      (Coordinator.init.applyOps ops).listeners ≠ []) :=
  applyOps_inv ops Coordinator.init (by simp [Coordinator.init])

/-- Helper: `_start_observing` records the fresh task id, keeps the listener
list, and spawns exactly one observation task. -/
theorem start_observing_shape (c : Coordinator) :
    (c.start_observing).1.task = some c.nextTask ∧
      (c.start_observing).1.listeners = c.listeners ∧
      spawnObserveCount (c.start_observing).2 = 1 := by
  unfold Coordinator.start_observing
  cases ht : c.task with
  | none => simp [spawnObserveCount, Action.isSpawnObserve]
  | some t0 => simp [spawnObserveCount, Action.isSpawnObserve]

/-- Helper: adding a listener to a coordinator with an empty listener list
appends it and runs `_start_observing`. -/
theorem add_listener_empty (c : Coordinator) (l : ListenerId)
    (h : c.listeners = []) :
    c.async_add_listener l =
      ({ c with listeners := c.listeners ++ [l] } : Coordinator).start_observing := by
  simp [Coordinator.async_add_listener, h]

/-- Helper: adding a listener to a coordinator with a non-empty listener list
only appends it: no effect is performed. -/
theorem add_listener_nonempty (c : Coordinator) (l : ListenerId)
    (h : c.listeners ≠ []) :
    c.async_add_listener l =
      (({ c with listeners := c.listeners ++ [l] } : Coordinator), []) := by
  have hb : c.listeners.isEmpty = false := by
    cases hq : c.listeners with
    | nil => exact absurd hq h
    | cons a as => rfl
  simp [Coordinator.async_add_listener, hb]

/-- Helper: a burst of adds on a coordinator whose listener list is already
non-empty performs no effect at all and leaves the task field alone. -/
theorem addAll_nonempty (ls : List ListenerId) : ∀ c : Coordinator,
    c.listeners ≠ [] →
    (c.addAll ls).1.task = c.task ∧ (c.addAll ls).2 = [] ∧
      (c.addAll ls).1.listeners ≠ [] := by
  induction ls with
  | nil => exact fun c h => ⟨rfl, rfl, h⟩
  | cons l ls ih =>
      intro c h
      have hunf : c.addAll (l :: ls) =
          (((c.async_add_listener l).1.addAll ls).1,
            (c.async_add_listener l).2 ++ ((c.async_add_listener l).1.addAll ls).2) := rfl
      rw [hunf, add_listener_nonempty c l h]
      have hne : ({ c with listeners := c.listeners ++ [l] } : Coordinator).listeners ≠ [] := by
        simp
      obtain ⟨ht, htr, hl2⟩ := ih _ hne
      exact ⟨ht, by simp [htr], hl2⟩

/-- C6: at most one observation task is ever live.  First,
`_start_observing` on a coordinator with a recorded observation task cancels
it before spawning the fresh task and then resets the Liveness Timer, and
records exactly the fresh task.  Second, any number of consecutive
add-listener calls from the empty-listener state spawn exactly one
observation task in total, and one task is recorded afterwards. -/
theorem single_observation_task (c d : Coordinator) (t : Nat)
    (l : ListenerId) (ls : List ListenerId)
    (hc : c.task = some t) (hd : d.listeners = []) :
    ((c.start_observing).2 =
        [Action.cancelObserve t, Action.spawnObserve c.nextTask, Action.timerReset] ∧
      (c.start_observing).1.task = some c.nextTask ∧
      (c.start_observing).1.timer.cancelled = false) ∧
    (spawnObserveCount (d.addAll (l :: ls)).2 = 1 ∧
      (d.addAll (l :: ls)).1.task.isSome = true) := by
  constructor
  · simp [Coordinator.start_observing, hc, Timer.reset]
  · have hunf : d.addAll (l :: ls) =
        (((d.async_add_listener l).1.addAll ls).1,
          (d.async_add_listener l).2 ++ ((d.async_add_listener l).1.addAll ls).2) := rfl
    have hadd := add_listener_empty d l hd
    obtain ⟨hsh1, hsh2, hsh3⟩ :=
      start_observing_shape ({ d with listeners := d.listeners ++ [l] } : Coordinator)
    have hlc1 :
        (({ d with listeners := d.listeners ++ [l] } : Coordinator).start_observing).1.listeners
          ≠ [] := by
      rw [hsh2]
      simp
    obtain ⟨hta, htr, _⟩ :=
      addAll_nonempty ls
        (({ d with listeners := d.listeners ++ [l] } : Coordinator).start_observing).1 hlc1
    rw [hunf, hadd]
    constructor
    · rw [htr]
      simp only [List.append_nil]
      exact hsh3
    · rw [hta, hsh1]
      rfl

/-- C6 witness: the statement at a coordinator with observation task 3 and
task counter 4, and a burst of three adds on the fresh coordinator. -/
theorem single_observation_task_witness :
    ({ Coordinator.init with task := some 3, nextTask := 4 } : Coordinator).task = some 3 ∧
      Coordinator.init.listeners = [] ∧
      (((({ Coordinator.init with task := some 3, nextTask := 4 } : Coordinator).start_observing).2 =
          [Action.cancelObserve 3, Action.spawnObserve 4, Action.timerReset] ∧
        ((({ Coordinator.init with task := some 3, nextTask := 4 } : Coordinator).start_observing).1.task =
          some 4) ∧
        ((({ Coordinator.init with task := some 3, nextTask := 4 } : Coordinator).start_observing).1.timer.cancelled =
          false)) ∧
      (spawnObserveCount (Coordinator.init.addAll [0, 1, 2]).2 = 1 ∧
        (Coordinator.init.addAll [0, 1, 2]).1.task.isSome = true)) :=
  ⟨rfl, rfl,
    single_observation_task
      { Coordinator.init with task := some 3, nextTask := 4 }
      Coordinator.init 3 0 [1, 2] rfl rfl⟩

/-- Helper: clamping a multiple of `step` between two multiples of `step`
yields a multiple of `step`. -/
theorem dvd_clamp (step minH maxH x : Int) (hmin : step ∣ minH)
    (hmax : step ∣ maxH) (hx : step ∣ x) :
    step ∣ max minH (min x maxH) := by
  have hy : step ∣ min x maxH := by
    rcases le_total x maxH with h1 | h1
    · rw [min_eq_left h1]
      exact hx
    · rw [min_eq_right h1]
      exact hmax
  rcases le_total minH (min x maxH) with h2 | h2
  · rw [max_eq_right h2]
    exact hy
  · rw [max_eq_left h2]
    exact hmin

/-- C10: for a humidifier configuration with positive step, step-aligned
bounds and `min_humidity ≤ max_humidity`, `async_set_humidity` sends to the
client a target that is a multiple of the step and lies in
`[min_humidity, max_humidity]`, while the cached status is patched with the
pre-rounding, pre-clamping adjusted humidity (the input, or
`current_target ± step` for a plus/minus press). -/
theorem set_humidity_step_clamped (step minH maxH ct h : Int)
    (hstep : 0 < step) (hmin : step ∣ minH) (hmax : step ∣ maxH)
    (hle : minH ≤ maxH) :
    step ∣ (async_set_humidity step minH maxH ct h).1 ∧
      minH ≤ (async_set_humidity step minH maxH ct h).1 ∧
      (async_set_humidity step minH maxH ct h).1 ≤ maxH ∧
      (async_set_humidity step minH maxH ct h).2 =
        (if h = ct + 1 then ct + step
         else if h = ct - 1 then ct - step else h) := by
  have e1 : (async_set_humidity step minH maxH ct h).1 =
      max minH
        (min
          (pyRound
            (if h = ct + 1 then ct + step
             else if h = ct - 1 then ct - step else h) step * step)
          maxH) := rfl
  refine ⟨?_, ?_, ?_, rfl⟩
  · rw [e1]
    exact dvd_clamp step minH maxH _ hmin hmax (dvd_mul_left step _)
  · rw [e1]
    exact le_max_left _ _
  · rw [e1]
    exact max_le hle (min_le_right _ _)

/-- C10 witness: configuration step 10, range 40 to 70, current target 50,
input 44: the value sent is 40 (a multiple of 10 inside the range) while the
cached status is patched with 44 — a value different from the one sent. -/
theorem set_humidity_step_clamped_witness :
    (0 : Int) < 10 ∧ (10 : Int) ∣ 40 ∧ (10 : Int) ∣ 70 ∧ (40 : Int) ≤ 70 ∧
      ((10 : Int) ∣ (async_set_humidity 10 40 70 50 44).1 ∧
        (40 : Int) ≤ (async_set_humidity 10 40 70 50 44).1 ∧
        (async_set_humidity 10 40 70 50 44).1 ≤ 70 ∧
        (async_set_humidity 10 40 70 50 44).2 =
          (if (44 : Int) = 50 + 1 then 50 + 10
           else if (44 : Int) = 50 - 1 then 50 - 10 else 44)) ∧
      (async_set_humidity 10 40 70 50 44).2 ≠ (async_set_humidity 10 40 70 50 44).1 :=
  ⟨by norm_num, by norm_num, by norm_num, by norm_num,
    set_humidity_step_clamped 10 40 70 50 44 (by norm_num) (by norm_num)
      (by norm_num) (by norm_num),
    by decide⟩

end PhilipsCoap
